import Mathlib

/-!
Verification of the gif-capture tool (`src/main.rs`) against its
natural-language specification.

The development shallowly embeds the core of the program:
* `get_capture_rect` — corner-pair to rectangle normalization,
* the pointer-event selection loop of `get_capture_area`,
* the timed frame-sampling loop of `capture_frames`,
* the pure frame conversions `convert_frame_to_rgb` / `convert_rgb_to_image`,
* the encoding entry point `create_gif`,
* `main`, as the composition of the above.

External collaborators (SDL, the capture device, the encoder, the file
system) enter as explicit parameters: the event stream as a list, the
capture device as a function from the attempt number to an optional raw
frame, the monotonic clock as a function from the loop-iteration number to
the elapsed whole seconds it reads, encoder and file-system outcomes as
`Except` values. Machine-integer coordinates are `Int` (i32) and sizes are
`Nat` (u32); conversions that can fail and panics are modelled with
`Option`.
-/

set_option maxRecDepth 4096

/-- `sdl2::rect::Point`: an integer (i32) screen coordinate pair. -/
structure Point where
  x : Int
  y : Int
deriving DecidableEq, Repr

/-- `sdl2::rect::Rect` as the program stores it: top-left corner (i32 each)
plus width and height (u32 each); its constructor `Rect::new` clamps the
fields, keeping every size at least 1 (a `Rect` is never empty). -/
structure Rect where
  x : Int
  y : Int
  width : Nat
  height : Nat
deriving DecidableEq, Repr

/-- Largest i32 value, `2^31 - 1`. -/
def i32_max : Int := 2 ^ 31 - 1

/-- Models `(a - b).try_into().unwrap()` from the source, where `a - b` is an
i32 subtraction and the target type is u32: it yields the exact difference
when that difference is representable as an i32 and non-negative, and `none`
where the program would panic (debug overflow panic, or release wrap
followed by a `TryFromIntError` unwrap). In `get_capture_rect` the
difference is always `max - min ≥ 0`, so only the upper bound can fail. -/
def checked_sub_to_u32 (a b : Int) : Option Nat :=
  if 0 ≤ a - b ∧ a - b ≤ i32_max then some (a - b).toNat else none

/-- `sdl2::rect::max_int_value()`: `i32::MAX as u32 / 2 = 2^30 - 1`. -/
def sdl_max_int : Int := 2 ^ 30 - 1

/-- `sdl2::rect::min_int_value()`: `i32::MIN / 2 = -2^30`. -/
def sdl_min_int : Int := -(2 ^ 30)

/-- `sdl2::rect::clamp_size`, applied by `Rect::new` to the width and the
height: 0 becomes 1 (a `Rect` is never empty) and values above
`max_int_value()` are capped there. -/
def clamp_size (val : Nat) : Nat :=
  if val = 0 then 1
  else if sdl_max_int.toNat < val then sdl_max_int.toNat
  else val

/-- `sdl2::rect::clamp_position`, applied by `Rect::new` to `x` and `y`:
forces the coordinate into `[min_int_value(), max_int_value()]`. -/
def clamp_position (val : Int) : Int :=
  if sdl_max_int < val then sdl_max_int
  else if val < sdl_min_int then sdl_min_int
  else val

/-- `sdl2::rect::Rect::new(x, y, width, height)`: stores the clamped
position and the clamped (never zero) size. -/
def rect_new (x y : Int) (width height : Nat) : Rect :=
  { x := clamp_position x, y := clamp_position y,
    width := clamp_size width, height := clamp_size height }

/-- `get_capture_rect` (src/main.rs lines 42-52): take the componentwise min
and max of both corners; the width and height are the differences, converted
to u32 and handed with the top-left corner to `Rect::new`, which clamps
them. `none` models the `unwrap` panic. -/
def get_capture_rect (corner1 : Point) (corner2 : Point) : Option Rect :=
  let min_x := min corner1.x corner2.x
  let min_y := min corner1.y corner2.y
  let max_x := max corner1.x corner2.x
  let max_y := max corner1.y corner2.y
  match checked_sub_to_u32 max_x min_x, checked_sub_to_u32 max_y min_y with
  | some width, some height => some (rect_new min_x min_y width height)
  | _, _ => none

/-- One pixel sample as delivered by the capture device (`captrs::Bgr8`);
only the `b`, `g`, `r` channels are read by the program, so the padding byte
is not modelled. -/
structure Bgr8 where
  b : Nat
  g : Nat
  r : Nat
deriving DecidableEq, Repr

/-- A raw frame: the flat pixel buffer `Vec<Bgr8>` the capture device
returns for one capture call. -/
abbrev Frame := List Bgr8

/-- The sampling loop of `capture_frames` (src/main.rs lines 153-168).
The capture device is `device`, mapping the attempt number (the number of
frames captured so far) to `some` buffer or `none` for a capture failure
(`Capturer::capture_frame` returning `Err`). The monotonic clock is
`elapsed`, mapping the loop-iteration number to the whole seconds
(`Instant::elapsed().as_secs()`) read at the top of that iteration; the
iteration number equals `frames.length` because each iteration appends
exactly one frame or returns. `fuel` bounds the number of iterations so the
model is total; `none` means the fuel ran out before the loop ended. Each
iteration first checks `elapsed > duration` and breaks with the frames
collected so far; otherwise it captures: on success the frame is appended,
on failure the loop returns the error string
`format!("Failed to capture frame {frames.len()}")` built from the number
of frames captured so far. The inter-frame `sleep` only shapes real time
and is absorbed into `elapsed`. -/
def capture_go (device : Nat → Option Frame) (elapsed : Nat → Nat) (duration : Nat) :
    Nat → List Frame → Option (Except String (List Frame))
  | 0, _ => none
  | fuel + 1, frames =>
    if duration < elapsed frames.length then some (Except.ok frames)
    else
      match device frames.length with
      | some frame_data => capture_go device elapsed duration fuel (frames ++ [frame_data])
      | none => some (Except.error ("Failed to capture frame " ++ toString frames.length))

/-- `capture_frames` (src/main.rs lines 146-171): computes the inter-frame
sleep `1000 / frame_rate` milliseconds (a division-by-zero panic when the
frame rate is 0, modelled as `none`) and the capacity estimate
`duration / frame_rate + 1`, neither of which affects the returned value,
then runs the sampling loop starting from an empty frame vector. -/
def capture_frames (duration frame_rate : Nat) (device : Nat → Option Frame)
    (elapsed : Nat → Nat) (fuel : Nat) : Option (Except String (List Frame)) :=
  if frame_rate = 0 then none
  else
    let sleep_time := 1000 / frame_rate
    let num_frames := duration / frame_rate + 1
    capture_go device elapsed duration fuel []

/-- Modelled from the spec: the sampling loop as §4.2 words it — capture one
frame, append it on success (abort with the failing attempt's index on
failure), block for the inter-frame delay, then re-check the elapsed time
and stop once it strictly exceeds the duration. The clock reading after the
`k`-th capture-plus-sleep is the reading the code takes at the top of
iteration `k`, so the same `elapsed` function describes both loops. -/
def capture_spec_go (device : Nat → Option Frame) (elapsed : Nat → Nat) (duration : Nat) :
    Nat → List Frame → Option (Except String (List Frame))
  | 0, _ => none
  | fuel + 1, frames =>
    match device frames.length with
    | none => some (Except.error ("Failed to capture frame " ++ toString frames.length))
    | some frame_data =>
      let grown := frames ++ [frame_data]
      if duration < elapsed grown.length then some (Except.ok grown)
      else capture_spec_go device elapsed duration fuel grown

/-- One `image::Rgb` pixel: three u8 color channels. -/
structure Rgb where
  r : Nat
  g : Nat
  b : Nat
deriving DecidableEq, Repr

/-- `image::RgbImage`: dimensions plus the row-major pixel list. -/
structure RgbImage where
  width : Nat
  height : Nat
  pixels : List Rgb
deriving DecidableEq, Repr

/-- One `[u8; 4]` RGBA pixel of an `engiffen::Image`. -/
structure Rgba where
  r : Nat
  g : Nat
  b : Nat
  a : Nat
deriving DecidableEq, Repr

/-- `engiffen::Image`: the row-major RGBA pixel list plus dimensions. -/
structure Image where
  pixels : List Rgba
  width : Nat
  height : Nat
deriving DecidableEq, Repr

/-- `convert_frame_to_rgb` (src/main.rs lines 173-178):
`RgbImage::from_fn(w, h, f)` fills the row-major pixel grid, calling the
closure at `x = i % w`, `y = i / w` for each buffer position `i < h * w`;
the closure reads the raw sample at buffer index `w * y + x` and keeps its
`r`, `g`, `b` channels. The indexing `frame[(w * y + x) as usize]` would
panic out of range; the model is total via a default sample, never reached
when the buffer length is `w * h` (the `RawFrame` length invariant). -/
def convert_frame_to_rgb (frame : Frame) (w h : Nat) : RgbImage :=
  { width := w, height := h,
    pixels := (List.range (h * w)).map fun i =>
      let x := i % w
      let y := i / w
      let pixel := frame.getD (w * y + x) { b := 0, g := 0, r := 0 }
      { r := pixel.r, g := pixel.g, b := pixel.b } }

/-- `convert_rgb_to_image` (src/main.rs lines 180-186): `image.pixels()`
iterates the pixels row-major; each maps to `[p[0], p[1], p[2], 255]`,
forcing alpha fully opaque. -/
def convert_rgb_to_image (image : RgbImage) : Image :=
  { pixels := image.pixels.map fun p => { r := p.r, g := p.g, b := p.b, a := 255 },
    width := image.width,
    height := image.height }

/-- The events relevant to the selection loop of `get_capture_area`;
`other` stands for every event both `match` statements ignore (including
key-downs other than escape). -/
inductive SEvent where
  | keyDownEscape
  | quit
  | mouseButtonDown (x y : Int)
  | mouseMotion (x y : Int)
  | mouseButtonUp (x y : Int)
  | other
deriving DecidableEq, Repr

/-- The loop state of `get_capture_area`: the mutable
`selected_corners : (Option<Point>, Option<Point>)`. -/
abbrev Corners := Option Point × Option Point

/-- The `'running` event loop of `get_capture_area` (src/main.rs lines
85-124) over an explicit event list. `Sum.inr` is a `break 'running` with
the corner state at that moment; `Sum.inl` means the list was exhausted
with the loop still polling. Escape-key-down and quit break immediately;
mouse-button-down records (or replaces) the anchor corner; mouse motion
only redraws the preview rectangle (no state change; drawing is an external
side effect, assumed to succeed); mouse-button-up, once an anchor exists,
records the second corner and breaks, and is ignored otherwise. -/
def run_events : List SEvent → Corners → Corners ⊕ Corners
  | [], corners => Sum.inl corners
  | e :: rest, corners =>
    match e with
    | SEvent.keyDownEscape => Sum.inr corners
    | SEvent.quit => Sum.inr corners
    | SEvent.mouseButtonDown x y => run_events rest (some { x := x, y := y }, corners.2)
    | SEvent.mouseMotion _ _ => run_events rest corners
    | SEvent.mouseButtonUp x y =>
      match corners.1 with
      | some _ => Sum.inr (corners.1, some { x := x, y := y })
      | none => run_events rest corners
    | SEvent.other => run_events rest corners

/-- `get_capture_area` (src/main.rs lines 54-130), with the window, canvas
and cursor setup elided (external collaborators, assumed to initialize):
runs the event loop from `(None, None)`; when the loop breaks with both
corners selected, the normalized rectangle is returned, otherwise
`Err("Failed to select area for capture.")`. The outer `none` covers the
two non-returns: an exhausted event list (the real loop keeps blocking for
events) and the panic inside `get_capture_rect`. -/
def get_capture_area (events : List SEvent) : Option (Except String Rect) :=
  match run_events events (none, none) with
  | Sum.inl _ => none
  | Sum.inr (some start, some stop) =>
    match get_capture_rect start stop with
    | some r => some (Except.ok r)
    | none => none
  | Sum.inr _ => some (Except.error "Failed to select area for capture.")

/-- `CaptureContext` (src/main.rs lines 25-28): the screen dimensions and
the selected capture rectangle, built once after selection completes. -/
structure CaptureContext where
  screen_dimensions : Nat × Nat
  capture_area : Rect
deriving DecidableEq, Repr

/-- The post-selection phases of `main` (src/main.rs lines 203-214), up to
the list of encoder-input images handed to `create_gif`: capture with the
fixed constants `capture_duration = 3` and `frame_rate = 10`, propagate a
capture failure via `?`, and convert every captured frame with the full
screen dimensions. The selected `capture_area` field is only printed. -/
def run_after_selection (ctx : CaptureContext) (device : Nat → Option Frame)
    (elapsed : Nat → Nat) (fuel : Nat) : Option (Except String (List Image)) :=
  match capture_frames 3 10 device elapsed fuel with
  | none => none
  | some (Except.error e) => some (Except.error e)
  | some (Except.ok frames) =>
    some (Except.ok (frames.map fun f =>
      convert_rgb_to_image
        (convert_frame_to_rgb f ctx.screen_dimensions.1 ctx.screen_dimensions.2)))

/-- `main` (src/main.rs lines 195-216) up to the encoder input: selection
runs first (`get_capture_context`, whose SDL initialization is elided) and
its failure short-circuits everything after it via `?`; otherwise the
post-selection phases run on the built `CaptureContext`. -/
def main_model (screen : Nat × Nat) (events : List SEvent) (device : Nat → Option Frame)
    (elapsed : Nat → Nat) (fuel : Nat) : Option (Except String (List Image)) :=
  match get_capture_area events with
  | none => none
  | some (Except.error e) => some (Except.error e)
  | some (Except.ok area) =>
    run_after_selection { screen_dimensions := screen, capture_area := area }
      device elapsed fuel

/-- The encoded animation `engiffen::Gif`, kept abstract as the data the
encoder computed it from: the frames and the frame rate (which fixes the
uniform per-frame delay). -/
structure Gif where
  frames : List Image
  frame_rate : Nat

/-- Outcome of a call whose failures the source discharges with
`.unwrap()`: `panicked` is the process abort, `returned` a value actually
handed back to the caller. -/
inductive PanicOr (α : Type) where
  | panicked
  | returned (val : α)
deriving DecidableEq

/-- `create_gif` (src/main.rs lines 188-193). The encoder call
(`engiffen(frames, frame_rate, NeuQuant(4))`), the output-file creation and
the write are external calls; each call's outcome enters as an `Except`
parameter. The source applies `.unwrap()` to all three (its own comments
say "need to handle error"), so any failure panics; only when all three
succeed does the function return, and then always `Ok(())`. -/
def create_gif (engiffen_result : Except String Gif)
    (file_create_result : Except String Unit)
    (write_result : Except String Unit) : PanicOr (Except String Unit) :=
  match engiffen_result with
  | Except.error _ => PanicOr.panicked
  | Except.ok _ =>
    match file_create_result with
    | Except.error _ => PanicOr.panicked
    | Except.ok _ =>
      match write_result with
      | Except.error _ => PanicOr.panicked
      | Except.ok _ => PanicOr.returned (Except.ok ())

/-- The 1×1 opaque black image that an empty raw frame converts to on a
1×1 screen; used only to state concrete runs. -/
def black_image : Image :=
  { pixels := [{ r := 0, g := 0, b := 0, a := 255 }], width := 1, height := 1 }

/-! ## Lemmas and claim theorems -/

lemma checked_sub_to_u32_max_min (a b : Int) (h : (a - b).natAbs ≤ i32_max.toNat) :
    checked_sub_to_u32 (max a b) (min a b) = some (a - b).natAbs := by
  unfold checked_sub_to_u32 i32_max at *
  rcases le_total a b with hab | hab
  · rw [max_eq_right hab, min_eq_left hab]
    have h0 : (0 : Int) ≤ b - a := by omega
    have habs : (a - b).natAbs = (b - a).toNat := by omega
    rw [if_pos ⟨h0, by omega⟩, habs]
  · rw [max_eq_left hab, min_eq_right hab]
    have h0 : (0 : Int) ≤ a - b := by omega
    have habs : (a - b).natAbs = (a - b).toNat := by omega
    rw [if_pos ⟨h0, by omega⟩, habs]

/-- Counterexample to claim C1 as frozen: at the corner pair `(0,0)` and
`(0,5)` — equal x-coordinates — the claim predicts width `|0 - 0| = 0`,
but `Rect::new`'s size clamp makes the program return width 1. -/
theorem get_capture_rect_clamp_counterexample :
    get_capture_rect ⟨0, 0⟩ ⟨0, 5⟩ ≠
      some { x := min (0 : Int) 0, y := min (0 : Int) 5,
             width := ((0 : Int) - 0).natAbs, height := ((0 : Int) - 5).natAbs } ∧
    get_capture_rect ⟨0, 0⟩ ⟨0, 5⟩ =
      some { x := 0, y := 0, width := 1, height := 5 } := by
  constructor
  · decide
  · decide

/-- Claim C1 (amended): for corner points whose coordinate differences are
representable, the rectangle derived by `get_capture_rect` has top-left
corner `(min(p1.x,p2.x), min(p1.y,p2.y))` and width `|p1.x - p2.x|` and
height `|p1.y - p2.y|`, each passed through `Rect::new`'s clamps (positions
into `[i32::MIN/2, i32::MAX/2]`; sizes into `[1, i32::MAX/2]`, so a zero
difference becomes 1), and the result is identical when the two corner
arguments are swapped. -/
theorem get_capture_rect_normalizes (p1 p2 : Point)
    (hx : (p1.x - p2.x).natAbs ≤ i32_max.toNat)
    (hy : (p1.y - p2.y).natAbs ≤ i32_max.toNat) :
    get_capture_rect p1 p2 =
      some { x := clamp_position (min p1.x p2.x), y := clamp_position (min p1.y p2.y),
             width := clamp_size (p1.x - p2.x).natAbs,
             height := clamp_size (p1.y - p2.y).natAbs } ∧
    get_capture_rect p1 p2 = get_capture_rect p2 p1 := by
  constructor
  · simp only [get_capture_rect]
    rw [checked_sub_to_u32_max_min p1.x p2.x hx, checked_sub_to_u32_max_min p1.y p2.y hy]
    rfl
  · simp only [get_capture_rect]
    rw [max_comm p1.x p2.x, max_comm p1.y p2.y, min_comm p1.x p2.x, min_comm p1.y p2.y]

/-- Witness for C1 at the spec's own example: corners `(10,10)` and `(50,40)`
yield the rectangle `(10, 10, 40, 30)` (no clamp fires here), the same in
either order. -/
theorem get_capture_rect_normalizes_witness :
    ((10 : Int) - 50).natAbs ≤ i32_max.toNat ∧ ((10 : Int) - 40).natAbs ≤ i32_max.toNat ∧
    (get_capture_rect ⟨10, 10⟩ ⟨50, 40⟩ =
      some { x := clamp_position (min (10 : Int) 50), y := clamp_position (min (10 : Int) 40),
             width := clamp_size ((10 : Int) - 50).natAbs,
             height := clamp_size ((10 : Int) - 40).natAbs } ∧
     get_capture_rect ⟨10, 10⟩ ⟨50, 40⟩ = get_capture_rect ⟨50, 40⟩ ⟨10, 10⟩) :=
  ⟨by decide, by decide,
   get_capture_rect_normalizes ⟨10, 10⟩ ⟨50, 40⟩ (by decide) (by decide)⟩

/-- Counterexample to claim C6 as frozen: at the equal corner pair `(3,7)`
the program returns a 1×1 rectangle — `Rect::new` clamps a zero width and
height up to 1 — not the 0×0 rectangle the claim states. -/
theorem get_capture_rect_equal_corners_counterexample :
    get_capture_rect ⟨3, 7⟩ ⟨3, 7⟩ = some { x := 3, y := 7, width := 1, height := 1 } ∧
    get_capture_rect ⟨3, 7⟩ ⟨3, 7⟩ ≠ some { x := 3, y := 7, width := 0, height := 0 } := by
  constructor
  · decide
  · decide

/-- Claim C6 (amended): when the two corner points are equal,
`get_capture_rect` returns a valid rectangle — not a panic / error — of
width 1 and height 1, the minimum size `Rect::new` clamps a zero difference
up to. -/
theorem get_capture_rect_equal_corners (p : Point) :
    get_capture_rect p p =
      some { x := clamp_position p.x, y := clamp_position p.y,
             width := 1, height := 1 } := by
  simp only [get_capture_rect]
  have hx := checked_sub_to_u32_max_min p.x p.x (by simp [i32_max])
  have hy := checked_sub_to_u32_max_min p.y p.y (by simp [i32_max])
  simp only [sub_self, Int.natAbs_zero] at hx hy
  rw [hx, hy]
  simp [rect_new, clamp_size]

lemma capture_go_ok_append (device : Nat → Option Frame) (elapsed : Nat → Nat)
    (duration : Nat) :
    ∀ (fuel : Nat) (acc res : List Frame),
      capture_go device elapsed duration fuel acc = some (Except.ok res) →
      ∃ tail, res = acc ++ tail ∧
        ∀ i (h : i < tail.length), device (acc.length + i) = some (tail.get ⟨i, h⟩) := by
  intro fuel
  induction fuel with
  | zero => intro acc res h; simp [capture_go] at h
  | succ fuel ih =>
    intro acc res h
    rw [capture_go] at h
    by_cases hbrk : duration < elapsed acc.length
    · rw [if_pos hbrk] at h
      have hres : acc = res := by simpa using h
      refine ⟨[], by simp [← hres], ?_⟩
      intro i hi; simp at hi
    · rw [if_neg hbrk] at h
      cases hdev : device acc.length with
      | none => rw [hdev] at h; simp at h
      | some f =>
        rw [hdev] at h
        obtain ⟨tail, htail, hdevs⟩ := ih (acc ++ [f]) res h
        refine ⟨f :: tail, by simpa using htail, ?_⟩
        intro i hi
        cases i with
        | zero => simpa using hdev
        | succ j =>
          have hj : j < tail.length := by simpa using hi
          have := hdevs j hj
          simp only [List.length_append, List.length_cons, List.length_nil] at this
          have harith : acc.length + (j + 1) = acc.length + 1 + j := by omega
          rw [harith]
          simpa using this

lemma capture_go_ok_device (device : Nat → Option Frame) (elapsed : Nat → Nat)
    (duration fuel : Nat) (res : List Frame)
    (h : capture_go device elapsed duration fuel [] = some (Except.ok res)) :
    ∀ i (hi : i < res.length), device i = some (res.get ⟨i, hi⟩) := by
  obtain ⟨tail, htail, hdevs⟩ := capture_go_ok_append device elapsed duration fuel [] res h
  simp only [List.nil_append] at htail
  subst htail
  intro i hi
  simpa using hdevs i hi

lemma capture_go_fails_at (device : Nat → Option Frame) (elapsed : Nat → Nat)
    (duration k : Nat)
    (hok : ∀ i, i < k → device i ≠ none)
    (hfail : device k = none)
    (htime : ∀ i, i ≤ k → elapsed i ≤ duration) :
    ∀ (fuel : Nat) (acc : List Frame), acc.length ≤ k → k < acc.length + fuel →
      capture_go device elapsed duration fuel acc =
        some (Except.error ("Failed to capture frame " ++ toString k)) := by
  intro fuel
  induction fuel with
  | zero => intro acc hle hlt; omega
  | succ fuel ih =>
    intro acc hle hlt
    rw [capture_go]
    have hnb : ¬ duration < elapsed acc.length := by
      have := htime acc.length hle
      omega
    rw [if_neg hnb]
    rcases Nat.lt_or_ge acc.length k with hck | hck
    · cases hdev : device acc.length with
      | none => exact absurd hdev (hok acc.length hck)
      | some f =>
        have := ih (acc ++ [f]) (by simpa using hck) (by simp; omega)
        simpa using this
    · have hk : acc.length = k := le_antisymm hle hck
      rw [hk, hfail]

/-- Claim C3: if the capture device fails on attempt `k` (0-based) and the
loop is still running when it reaches that attempt (the elapsed seconds up
to then never exceed the duration, and enough fuel remains), the sampler
aborts immediately: the whole run returns only the failure message carrying
`k` — which equals the number of frames captured successfully so far — and
none of the previously captured frames. -/
theorem capture_frames_device_failure (duration frame_rate k fuel : Nat)
    (device : Nat → Option Frame) (elapsed : Nat → Nat)
    (hR : 0 < frame_rate)
    (hok : ∀ i, i < k → device i ≠ none)
    (hfail : device k = none)
    (htime : ∀ i, i ≤ k → elapsed i ≤ duration)
    (hfuel : k < fuel) :
    capture_frames duration frame_rate device elapsed fuel =
      some (Except.error ("Failed to capture frame " ++ toString k)) := by
  rw [capture_frames, if_neg (Nat.pos_iff_ne_zero.mp hR)]
  exact capture_go_fails_at device elapsed duration k hok hfail htime fuel []
    (Nat.zero_le k) (by simpa using hfuel)

/-- Witness for C3 at the spec's own example: a device that fails on its
3rd call (attempt index 2) makes the sampler return the failure message for
index 2 and no frames. -/
theorem capture_frames_device_failure_witness :
    0 < 10 ∧
    (∀ i, i < 2 → (fun j => if j < 2 then some ([] : Frame) else none) i ≠ none) ∧
    (fun j => if j < 2 then some ([] : Frame) else none) 2 = none ∧
    (∀ i, i ≤ 2 → (fun _ => 0 : Nat → Nat) i ≤ 3) ∧
    2 < 10 ∧
    capture_frames 3 10 (fun j => if j < 2 then some ([] : Frame) else none)
        (fun _ => 0) 10 =
      some (Except.error ("Failed to capture frame " ++ toString 2)) :=
  ⟨by decide, by decide, by decide, fun i _ => Nat.zero_le 3, by decide,
   capture_frames_device_failure 3 10 2 10
     (fun j => if j < 2 then some ([] : Frame) else none) (fun _ => 0)
     (by decide) (by decide) (by decide) (fun i _ => Nat.zero_le 3) (by decide)⟩

lemma capture_go_isSome (device : Nat → Option Frame) (elapsed : Nat → Nat)
    (duration N : Nat)
    (hmono : Monotone elapsed)
    (hN : duration < elapsed N) :
    ∀ (fuel : Nat) (acc : List Frame), acc.length ≤ N → N < acc.length + fuel →
      (capture_go device elapsed duration fuel acc).isSome := by
  intro fuel
  induction fuel with
  | zero => intro acc hle hlt; omega
  | succ fuel ih =>
    intro acc hle hlt
    rw [capture_go]
    by_cases hbrk : duration < elapsed acc.length
    · rw [if_pos hbrk]; rfl
    · rw [if_neg hbrk]
      have hck : acc.length < N := by
        rcases Nat.lt_or_ge acc.length N with h | h
        · exact h
        · exact absurd (lt_of_lt_of_le hN (hmono h)) hbrk
      cases hdev : device acc.length with
      | none => rfl
      | some f =>
        have := ih (acc ++ [f]) (by simpa using hck) (by simp; omega)
        simpa using this

lemma capture_go_eq_spec (device : Nat → Option Frame) (elapsed : Nat → Nat)
    (duration N : Nat)
    (hmono : Monotone elapsed)
    (hN : duration < elapsed N) :
    ∀ (fuel : Nat) (acc : List Frame),
      acc.length ≤ N → N < acc.length + fuel → elapsed acc.length ≤ duration →
      capture_go device elapsed duration fuel acc =
        capture_spec_go device elapsed duration fuel acc := by
  intro fuel
  induction fuel with
  | zero => intro acc hle hlt _; omega
  | succ fuel ih =>
    intro acc hle hlt hnow
    rw [capture_go, capture_spec_go, if_neg (by omega)]
    cases hdev : device acc.length with
    | none => rfl
    | some f =>
      have hck : acc.length < N := by
        rcases Nat.lt_or_ge acc.length N with h | h
        · exact h
        · exact absurd (le_trans (hmono h) hnow) (by omega)
      by_cases hnext : duration < elapsed (acc ++ [f]).length
      · simp only [if_pos hnext]
        obtain ⟨fuel', rfl⟩ : ∃ fuel', fuel = fuel' + 1 := by
          rcases fuel with _ | fuel'
          · exfalso; simp at hlt; omega
          · exact ⟨fuel', rfl⟩
        rw [capture_go, if_pos hnext]
      · simp only [if_neg hnext]
        exact ih (acc ++ [f]) (by simpa using hck) (by simp; omega)
          (by simpa using Nat.le_of_not_lt hnext)

/-- Claim C4: with a monotone clock that starts at 0 and eventually exceeds
the duration (reading strictly more than `duration` whole seconds at some
iteration `N`), and any positive frame rate, the sampling loop of
`capture_frames` terminates within `N + 1` iterations; moreover its result
is exactly that of the spec's algorithm, which checks the elapsed time
after each capture-plus-sleep and stops once it strictly exceeds the
duration. -/
theorem capture_frames_terminates_as_spec (duration frame_rate N : Nat)
    (device : Nat → Option Frame) (elapsed : Nat → Nat)
    (hR : 0 < frame_rate)
    (hmono : Monotone elapsed)
    (h0 : elapsed 0 = 0)
    (hN : duration < elapsed N) :
    (capture_frames duration frame_rate device elapsed (N + 1)).isSome ∧
    capture_frames duration frame_rate device elapsed (N + 1) =
      capture_spec_go device elapsed duration (N + 1) [] := by
  rw [capture_frames, if_neg (Nat.pos_iff_ne_zero.mp hR)]
  constructor
  · exact capture_go_isSome device elapsed duration N hmono hN (N + 1) []
      (Nat.zero_le N) (by simp)
  · exact capture_go_eq_spec device elapsed duration N hmono hN (N + 1) []
      (Nat.zero_le N) (by simp) (by simp [h0])

/-- Witness for C4: a clock reading `k` seconds at iteration `k`, a
never-failing device, duration 3 s and frame rate 10: the loop stops and
matches the spec's algorithm. -/
theorem capture_frames_terminates_as_spec_witness :
    0 < 10 ∧ Monotone (fun k => k : Nat → Nat) ∧ (fun k => k : Nat → Nat) 0 = 0 ∧
    3 < (fun k => k : Nat → Nat) 4 ∧
    ((capture_frames 3 10 (fun _ => some ([] : Frame)) (fun k => k) (4 + 1)).isSome ∧
     capture_frames 3 10 (fun _ => some ([] : Frame)) (fun k => k) (4 + 1) =
       capture_spec_go (fun _ => some ([] : Frame)) (fun k => k) 3 (4 + 1) []) :=
  ⟨by decide, fun _ _ h => h, rfl, by decide,
   capture_frames_terminates_as_spec 3 10 4 (fun _ => some ([] : Frame)) (fun k => k)
     (by decide) (fun _ _ h => h) rfl (by decide)⟩

/-- Claim C5: sampling with duration 0 (with any capture device, provided
the run completes successfully) still yields at least one frame when the
clock's first reading is 0 seconds: the loop body runs once before the
elapsed check can take effect. -/
theorem capture_frames_zero_duration (frame_rate fuel : Nat)
    (device : Nat → Option Frame) (elapsed : Nat → Nat) (res : List Frame)
    (hR : 0 < frame_rate)
    (h0 : elapsed 0 = 0)
    (hres : capture_frames 0 frame_rate device elapsed fuel = some (Except.ok res)) :
    1 ≤ res.length := by
  rw [capture_frames, if_neg (Nat.pos_iff_ne_zero.mp hR)] at hres
  rcases fuel with _ | fuel
  · simp [capture_go] at hres
  · rw [capture_go] at hres
    simp only [List.length_nil, h0, Nat.lt_irrefl, if_false] at hres
    cases hdev : device 0 with
    | none => rw [hdev] at hres; simp at hres
    | some f =>
      rw [hdev] at hres
      obtain ⟨tail, htail, _⟩ :=
        capture_go_ok_append device elapsed 0 fuel ([] ++ [f]) res hres
      subst htail
      simp

/-- Witness for C5: with duration 0, a clock reading `k` seconds at
iteration `k` and a never-failing device, the run returns exactly one
frame. -/
theorem capture_frames_zero_duration_witness :
    0 < 10 ∧ (fun k => k : Nat → Nat) 0 = 0 ∧
    capture_frames 0 10 (fun _ => some ([] : Frame)) (fun k => k) 2 =
      some (Except.ok ([[]] : List Frame)) ∧
    1 ≤ ([[]] : List Frame).length :=
  ⟨by decide, rfl, rfl,
   capture_frames_zero_duration 10 2 (fun _ => some ([] : Frame)) (fun k => k)
     [[]] (by decide) rfl rfl⟩

lemma list_getD_map_range {α : Type} (f : Nat → α) (m n : Nat) (d : α) (h : n < m) :
    ((List.range m).map f).getD n d = f n := by
  rw [List.getD_eq_getElem?_getD, List.getElem?_map, List.getElem?_range h]
  rfl

lemma list_getD_get {α : Type} (l : List α) (n : Nat) (d : α) (h : n < l.length) :
    l.getD n d = l.get ⟨n, h⟩ := by
  rw [List.getD_eq_getElem?_getD, List.getElem?_eq_getElem h]
  rfl

/-- Claim C7: converting a raw frame whose buffer has length `W*H` yields an
image of the same `W×H` dimensions whose pixel at `(x, y)` — position
`y*W + x` of the row-major pixel grid — takes its color channels unchanged
from buffer index `y*W + x` and carries alpha forced to 255. -/
theorem convert_frame_pixelwise (frame : Frame) (w h x y : Nat)
    (hlen : frame.length = w * h) (hx : x < w) (hy : y < h) :
    ∃ hidx : y * w + x < frame.length,
      (convert_rgb_to_image (convert_frame_to_rgb frame w h)).width = w ∧
      (convert_rgb_to_image (convert_frame_to_rgb frame w h)).height = h ∧
      (convert_rgb_to_image (convert_frame_to_rgb frame w h)).pixels.length = w * h ∧
      (convert_rgb_to_image (convert_frame_to_rgb frame w h)).pixels.getD (y * w + x)
          { r := 0, g := 0, b := 0, a := 0 } =
        { r := (frame.get ⟨y * w + x, hidx⟩).r,
          g := (frame.get ⟨y * w + x, hidx⟩).g,
          b := (frame.get ⟨y * w + x, hidx⟩).b, a := 255 } := by
  have hlt : y * w + x < h * w := by
    calc y * w + x < y * w + w := by omega
    _ = (y + 1) * w := by ring
    _ ≤ h * w := Nat.mul_le_mul_right w hy
  have hidx : y * w + x < frame.length := by rw [hlen, Nat.mul_comm w h]; exact hlt
  refine ⟨hidx, rfl, rfl, ?_, ?_⟩
  · simp [convert_rgb_to_image, convert_frame_to_rgb, Nat.mul_comm]
  · have hmod : (y * w + x) % w = x := by
      rw [Nat.add_comm, Nat.add_mul_mod_self_right, Nat.mod_eq_of_lt hx]
    have hdiv : (y * w + x) / w = y := by
      rw [Nat.add_comm, Nat.add_mul_div_right _ _ (Nat.pos_of_ne_zero (by omega)),
        Nat.div_eq_of_lt hx, Nat.zero_add]
    simp only [convert_rgb_to_image, convert_frame_to_rgb, List.map_map]
    rw [list_getD_map_range _ _ _ _ hlt]
    simp only [Function.comp, hmod, hdiv]
    have harith : w * y + x = y * w + x := by ring
    rw [harith, list_getD_get frame (y * w + x) _ hidx]

/-- Witness for C7 at the spec's own 2×2 example: the buffer `[c0,c1,c2,c3]`
puts `c3` at pixel `(1,1)` with its channels unchanged and alpha 255. -/
theorem convert_frame_pixelwise_witness :
    ([⟨0, 1, 2⟩, ⟨10, 11, 12⟩, ⟨20, 21, 22⟩, ⟨30, 31, 32⟩] : Frame).length = 2 * 2 ∧
    1 < 2 ∧
    (∃ hidx : 1 * 2 + 1 <
        ([⟨0, 1, 2⟩, ⟨10, 11, 12⟩, ⟨20, 21, 22⟩, ⟨30, 31, 32⟩] : Frame).length,
      (convert_rgb_to_image (convert_frame_to_rgb
          [⟨0, 1, 2⟩, ⟨10, 11, 12⟩, ⟨20, 21, 22⟩, ⟨30, 31, 32⟩] 2 2)).width = 2 ∧
      (convert_rgb_to_image (convert_frame_to_rgb
          [⟨0, 1, 2⟩, ⟨10, 11, 12⟩, ⟨20, 21, 22⟩, ⟨30, 31, 32⟩] 2 2)).height = 2 ∧
      (convert_rgb_to_image (convert_frame_to_rgb
          [⟨0, 1, 2⟩, ⟨10, 11, 12⟩, ⟨20, 21, 22⟩, ⟨30, 31, 32⟩] 2 2)).pixels.length =
        2 * 2 ∧
      (convert_rgb_to_image (convert_frame_to_rgb
          [⟨0, 1, 2⟩, ⟨10, 11, 12⟩, ⟨20, 21, 22⟩, ⟨30, 31, 32⟩] 2 2)).pixels.getD
          (1 * 2 + 1) { r := 0, g := 0, b := 0, a := 0 } =
        { r := (([⟨0, 1, 2⟩, ⟨10, 11, 12⟩, ⟨20, 21, 22⟩, ⟨30, 31, 32⟩] : Frame).get
            ⟨1 * 2 + 1, hidx⟩).r,
          g := (([⟨0, 1, 2⟩, ⟨10, 11, 12⟩, ⟨20, 21, 22⟩, ⟨30, 31, 32⟩] : Frame).get
            ⟨1 * 2 + 1, hidx⟩).g,
          b := (([⟨0, 1, 2⟩, ⟨10, 11, 12⟩, ⟨20, 21, 22⟩, ⟨30, 31, 32⟩] : Frame).get
            ⟨1 * 2 + 1, hidx⟩).b, a := 255 }) :=
  ⟨rfl, by decide,
   convert_frame_pixelwise [⟨0, 1, 2⟩, ⟨10, 11, 12⟩, ⟨20, 21, 22⟩, ⟨30, 31, 32⟩] 2 2 1 1
     rfl (by decide) (by decide)⟩

/-- Claim C2: the selected capture rectangle has no influence on the
produced animation: `main` converts every captured frame with the full
screen dimensions and only prints `capture_area`, so two runs that differ
only in the selected rectangle — same screen, same capture device, same
clock — produce identical encoder input. -/
theorem capture_area_no_influence (screen : Nat × Nat) (ev1 ev2 : List SEvent)
    (r1 r2 : Rect) (device : Nat → Option Frame) (elapsed : Nat → Nat) (fuel : Nat)
    (h1 : get_capture_area ev1 = some (Except.ok r1))
    (h2 : get_capture_area ev2 = some (Except.ok r2)) :
    main_model screen ev1 device elapsed fuel =
      main_model screen ev2 device elapsed fuel := by
  simp only [main_model, h1, h2]
  rfl

/-- Witness for C2: two drags selecting different rectangles, everything
else equal, give the same encoder input. -/
theorem capture_area_no_influence_witness :
    get_capture_area [SEvent.mouseButtonDown 0 0, SEvent.mouseButtonUp 5 5] =
      some (Except.ok { x := 0, y := 0, width := 5, height := 5 }) ∧
    get_capture_area [SEvent.mouseButtonDown 1 1, SEvent.mouseButtonUp 9 9] =
      some (Except.ok { x := 1, y := 1, width := 8, height := 8 }) ∧
    main_model (2, 2) [SEvent.mouseButtonDown 0 0, SEvent.mouseButtonUp 5 5]
        (fun _ => some ([] : Frame)) (fun k => k) 5 =
      main_model (2, 2) [SEvent.mouseButtonDown 1 1, SEvent.mouseButtonUp 9 9]
        (fun _ => some ([] : Frame)) (fun k => k) 5 :=
  ⟨rfl, rfl,
   capture_area_no_influence (2, 2) _ _ _ _ (fun _ => some ([] : Frame)) (fun k => k) 5
     rfl rfl⟩

lemma run_events_append (l1 l2 : List SEvent) (s : Corners) :
    run_events (l1 ++ l2) s =
      match run_events l1 s with
      | Sum.inl s' => run_events l2 s'
      | Sum.inr r => Sum.inr r := by
  induction l1 generalizing s with
  | nil => rfl
  | cons e rest ih =>
    rcases s with ⟨c1, c2⟩
    cases e with
    | keyDownEscape => rfl
    | quit => rfl
    | mouseButtonDown x y =>
      simp only [List.cons_append, run_events]
      exact ih _
    | mouseMotion x y =>
      simp only [List.cons_append, run_events]
      exact ih _
    | mouseButtonUp x y =>
      cases c1 with
      | some p => rfl
      | none =>
        simp only [List.cons_append, run_events]
        exact ih _
    | other =>
      simp only [List.cons_append, run_events]
      exact ih _

lemma run_events_running_no_second (events : List SEvent) :
    ∀ (c s : Corners), c.2 = none → run_events events c = Sum.inl s → s.2 = none := by
  induction events with
  | nil =>
    intro c s hc h
    simp only [run_events, Sum.inl.injEq] at h
    rw [← h]
    exact hc
  | cons e rest ih =>
    intro c s hc h
    rcases c with ⟨c1, c2⟩
    simp only at hc
    subst hc
    cases e with
    | keyDownEscape => simp [run_events] at h
    | quit => simp [run_events] at h
    | mouseButtonDown x y =>
      simp only [run_events] at h
      exact ih _ s rfl h
    | mouseMotion x y =>
      simp only [run_events] at h
      exact ih _ s rfl h
    | mouseButtonUp x y =>
      cases c1 with
      | some p => simp [run_events] at h
      | none =>
        simp only [run_events] at h
        exact ih _ s rfl h
    | other =>
      simp only [run_events] at h
      exact ih _ s rfl h

/-- Claim C9: whenever the selection loop ends via the escape key or the
quit signal — from any state it can still be running in, hence before a
pointer-up completed the drag — `get_capture_area` returns the selection
failure (no rectangle), and the caller never proceeds to the capture phase:
for every capture device and clock, the whole run returns that selection
error. -/
theorem selection_cancelled_aborts (pre rest : List SEvent) (e : SEvent) (s : Corners)
    (hcancel : e = SEvent.keyDownEscape ∨ e = SEvent.quit)
    (hrun : run_events pre (none, none) = Sum.inl s) :
    get_capture_area (pre ++ e :: rest) =
      some (Except.error "Failed to select area for capture.") ∧
    ∀ (screen : Nat × Nat) (device : Nat → Option Frame) (elapsed : Nat → Nat) (fuel : Nat),
      main_model screen (pre ++ e :: rest) device elapsed fuel =
        some (Except.error "Failed to select area for capture.") := by
  have hs2 : s.2 = none := run_events_running_no_second pre (none, none) s rfl hrun
  have hbreak : run_events (pre ++ e :: rest) (none, none) = Sum.inr s := by
    rw [run_events_append, hrun]
    rcases s with ⟨c1, c2⟩
    rcases hcancel with rfl | rfl
    · rfl
    · rfl
  have harea : get_capture_area (pre ++ e :: rest) =
      some (Except.error "Failed to select area for capture.") := by
    rcases s with ⟨c1, c2⟩
    simp only at hs2
    subst hs2
    simp only [get_capture_area, hbreak]
  refine ⟨harea, ?_⟩
  intro screen device elapsed fuel
  simp only [main_model, harea]

/-- Witness for C9: the single-event stream `[quit]` aborts the selection
and the whole run, whatever the capture device would have produced. -/
theorem selection_cancelled_aborts_witness :
    (SEvent.quit = SEvent.keyDownEscape ∨ SEvent.quit = SEvent.quit) ∧
    run_events [] ((none, none) : Corners) = Sum.inl ((none, none) : Corners) ∧
    get_capture_area ([] ++ SEvent.quit :: []) =
      some (Except.error "Failed to select area for capture.") ∧
    main_model (2, 2) ([] ++ SEvent.quit :: []) (fun _ => some ([] : Frame))
        (fun k => k) 5 =
      some (Except.error "Failed to select area for capture.") :=
  ⟨Or.inr rfl, rfl,
   (selection_cancelled_aborts [] [] SEvent.quit (none, none) (Or.inr rfl) rfl).1,
   (selection_cancelled_aborts [] [] SEvent.quit (none, none) (Or.inr rfl) rfl).2 (2, 2)
     (fun _ => some ([] : Frame)) (fun k => k) 5⟩

/-- Claim C10: in every successful run the image sequence handed to the
assembler lists the captured frames in capture order — element `i` of the
frame sequence is the device's `i`-th capture, and the image list is its
order-preserving map under conversion — and every element has the same
width and height, namely the full screen dimensions. -/
theorem frame_sequence_ordered_uniform (screen : Nat × Nat) (events : List SEvent)
    (device : Nat → Option Frame) (elapsed : Nat → Nat) (fuel : Nat) (images : List Image)
    (h : main_model screen events device elapsed fuel = some (Except.ok images)) :
    ∃ frames : List Frame,
      capture_frames 3 10 device elapsed fuel = some (Except.ok frames) ∧
      images = frames.map (fun f =>
        convert_rgb_to_image (convert_frame_to_rgb f screen.1 screen.2)) ∧
      (∀ i (hi : i < frames.length), device i = some (frames.get ⟨i, hi⟩)) ∧
      (∀ img ∈ images, img.width = screen.1 ∧ img.height = screen.2) := by
  simp only [main_model] at h
  cases hga : get_capture_area events with
  | none => rw [hga] at h; simp at h
  | some r =>
    rw [hga] at h
    cases r with
    | error e => simp at h
    | ok area =>
      simp only [run_after_selection] at h
      cases hcf : capture_frames 3 10 device elapsed fuel with
      | none => rw [hcf] at h; simp at h
      | some cr =>
        rw [hcf] at h
        cases cr with
        | error e => simp at h
        | ok frames =>
          simp only [Option.some.injEq, Except.ok.injEq] at h
          refine ⟨frames, rfl, h.symm, ?_, ?_⟩
          · have hgo : capture_go device elapsed 3 fuel [] = some (Except.ok frames) := by
              rw [capture_frames] at hcf
              simpa using hcf
            exact capture_go_ok_device device elapsed 3 fuel frames hgo
          · intro img hmem
            rw [← h] at hmem
            obtain ⟨f, _, rfl⟩ := List.mem_map.mp hmem
            exact ⟨rfl, rfl⟩

/-- Witness for C10: a successful concrete run — a completed drag, a
never-failing device and a clock reading `k` seconds at iteration `k` —
produces four 1×1 images in capture order. -/
theorem frame_sequence_ordered_uniform_witness :
    main_model (1, 1) [SEvent.mouseButtonDown 0 0, SEvent.mouseButtonUp 2 2]
        (fun _ => some ([] : Frame)) (fun k => k) 6 =
      some (Except.ok (List.replicate 4 black_image)) ∧
    ∃ frames : List Frame,
      capture_frames 3 10 (fun _ => some ([] : Frame)) (fun k => k) 6 =
        some (Except.ok frames) ∧
      List.replicate 4 black_image = frames.map (fun f =>
        convert_rgb_to_image (convert_frame_to_rgb f (1, 1).1 (1, 1).2)) ∧
      (∀ i (hi : i < frames.length),
        (fun _ => some ([] : Frame)) i = some (frames.get ⟨i, hi⟩)) ∧
      (∀ img ∈ List.replicate 4 black_image,
        img.width = (1, 1).1 ∧ img.height = (1, 1).2) :=
  ⟨rfl,
   frame_sequence_ordered_uniform (1, 1)
     [SEvent.mouseButtonDown 0 0, SEvent.mouseButtonUp 2 2]
     (fun _ => some ([] : Frame)) (fun k => k) 6 (List.replicate 4 black_image) rfl⟩

/-- Claim C8, as the code actually behaves (the defect the spec flags in
§4.4/§9): `create_gif` never surfaces a failure as an error result. On an
encoder failure — which covers the empty frame sequence, mismatched frame
dimensions and palette-build failures — a file-creation failure or a write
failure, the `.unwrap()`s abort the process; every call either panics or
returns `Ok(())`, so an `Err` is never returned to the caller. -/
theorem create_gif_panics_on_failure :
    create_gif (Except.error "No images sent for encoding") (Except.ok ()) (Except.ok ()) =
      PanicOr.panicked ∧
    create_gif (Except.ok { frames := [], frame_rate := 10 }) (Except.error "create failed")
        (Except.ok ()) = PanicOr.panicked ∧
    create_gif (Except.ok { frames := [], frame_rate := 10 }) (Except.ok ())
        (Except.error "write failed") = PanicOr.panicked ∧
    ∀ (er : Except String Gif) (fc wr : Except String Unit),
      create_gif er fc wr = PanicOr.panicked ∨
      create_gif er fc wr = PanicOr.returned (Except.ok ()) := by
  refine ⟨rfl, rfl, rfl, ?_⟩
  intro er fc wr
  cases er with
  | error e => exact Or.inl rfl
  | ok g =>
    cases fc with
    | error e => exact Or.inl rfl
    | ok u =>
      cases wr with
      | error e => exact Or.inl rfl
      | ok u2 => exact Or.inr rfl
